import Mathlib

/-!
Verification of the motel-management agent tools (`backend/agent.py`).

The tools are shallowly embedded as pure Lean functions over an explicit
`Store` (the four database tables) and an explicit session-memory map.
Calendar dates inside the store are modelled at day granularity as `Int`
day numbers, matching the spec's "calendar dates, no time component";
the separate `parse_date` boundary adapter, whose behaviour is about
year resolution, is modelled with an explicit year/month/day record.
Currency amounts are modelled as `Int`.  Human-readable date and amount
formatting (`strftime`, `:.2f`) is abstracted by `fmtDate`/`fmtAmount`;
every distinct return branch of a tool yields a distinct string, as in
the source.
-/

namespace Agent

/-- A row of `dh_rooms`: `room_number` (key), `room_type`, `status`. -/
structure Room where
  room_number : String
  room_type : String
  status : String
deriving Repr, DecidableEq

/-- A row of `dh_roomtypes`: `room_type` (key) and its nightly rate. -/
structure RoomType where
  room_type : String
  rate_per_night : Int
deriving Repr, DecidableEq

/-- A row of `dh_bookings`.  Dates are day numbers; `booking_date` is the
creation time at day granularity. -/
structure Booking where
  guest_name : String
  room_number : String
  check_in_date : Int
  check_out_date : Int
  total_amount : Int
  booking_date : Int
deriving Repr, DecidableEq

/-- A row of `dh_tickets`. -/
structure Ticket where
  id : Int
  room_number : String
  request_description : String
  status : String
  assigned_to_department : String
  created_at : Int
deriving Repr, DecidableEq

/-- The relational store: the four tables used by the tools.  Lists keep
storage (insertion) order, as PostgreSQL result sets do for these
unordered queries. -/
structure Store where
  rooms : List Room
  roomtypes : List RoomType
  bookings : List Booking
  tickets : List Ticket
deriving Repr, DecidableEq

/-- Session memory: thread id ↦ stored `customer_name`, the model of the
`MemorySaver` checkpoint field read and written by `book_room`. -/
def Mem : Type := String → Option String

/-- Python truthiness of an optional string argument: `None` and `""` are
falsy (`if not x`). -/
def truthyStr : Option String → Bool
  | none => false
  | some s => s != ""

/-- Python truthiness of an optional int argument: `None` and `0` are
falsy (`if not x`). -/
def truthyInt : Option Int → Bool
  | none => false
  | some i => i != 0

/-- Character-level model of Python `str.replace("_", " ")`. -/
def underscoreToSpace (c : Char) : Char := if c = '_' then ' ' else c

/-- Python `str.capitalize`: first character upper-cased, the rest
lower-cased. -/
def capitalizeChars : List Char → List Char
  | [] => []
  | c :: cs => c.toUpper :: cs.map Char.toLower

/-- `missing_param_response`: underscore → space, capitalize, fixed tail. -/
def missing_param_response (param : String) : String :=
  String.mk (capitalizeChars (param.data.map underscoreToSpace))
    ++ " is missing. Could you please provide it?"

/-- Day-granularity stand-in for the conversational `strftime` formatting. -/
def fmtDate (d : Int) : String := toString d

/-- Stand-in for the `:.2f` amount formatting. -/
def fmtAmount (a : Int) : String := toString a

/-- The SQL inclusive-overlap condition of `check_room_availability`:
`check_in_date <= check_out AND check_out_date >= check_in` with the bound
parameters of the source (first placeholder gets `check_out`, second gets
`check_in`). -/
def conflictsWith (b : Booking) (check_in check_out : Int) : Bool :=
  decide (b.check_in_date ≤ check_out) && decide (b.check_out_date ≥ check_in)

/-- The room query of `check_room_availability` (`agent.py` lines 98-107):
rooms whose `room_number` is NOT IN the set of room numbers of bookings
matching `conflictsWith`. -/
def availableRooms (store : Store) (check_in check_out : Int) : List Room :=
  store.rooms.filter (fun r =>
    !(store.bookings.any (fun b =>
        b.room_number == r.room_number && conflictsWith b check_in check_out)))

/-- The full `check_room_availability` tool: parameter, past-date and range
validation, then the query.  Date parameters arrive already parsed
(`parse_date` is the modelled boundary adapter; a missing parameter is
`none`). -/
def check_room_availability (store : Store) (check_in_date check_out_date : Option Int)
    (today : Int) : String :=
  if check_in_date.isNone then missing_param_response "check_in_date"
  else if check_out_date.isNone then missing_param_response "check_out_date"
  else
    let check_in := check_in_date.getD 0
    let check_out := check_out_date.getD 0
    if check_in < today then
      "Check-in date " ++ fmtDate check_in ++ " is in the past. Please provide a future date."
    else if check_out ≤ check_in then
      "Check-out date must be after check-in date."
    else
      let rooms := availableRooms store check_in check_out
      if rooms.isEmpty then
        "No rooms available between " ++ fmtDate check_in ++ " and " ++ fmtDate check_out ++ "."
      else
        "Available rooms between " ++ fmtDate check_in ++ " and " ++ fmtDate check_out ++ ":\n"
          ++ String.intercalate ", "
              (rooms.map (fun r => "Room " ++ r.room_number ++ " (" ++ r.room_type ++ ")"))

/-- `book_room` (`agent.py` lines 116-196).  Returns the reply string, the
updated store and the updated session memory.  The retrieval of the stored
guest name (guarded by `if not guest_name and session_id`, both Python
truthiness, so an empty-string session id skips it), the falsiness checks,
the date validation, the room and rate lookups, the price computation, the
unconditional insert and the memory write (guarded by `if session_id:`)
mirror the source line by line; there is no availability re-check before
the insert. -/
def book_room (store : Store) (mem : Mem)
    (guest_name room_number : Option String)
    (check_in_date check_out_date : Option Int)
    (session_id : Option String) (today now : Int) : String × Store × Mem :=
  let guest_name :=
    if !truthyStr guest_name && truthyStr session_id then
      match mem (session_id.getD "") with
      | some name => some name
      | none => guest_name
    else guest_name
  if !truthyStr guest_name then (missing_param_response "guest_name", store, mem)
  else if !truthyStr room_number then (missing_param_response "room_number", store, mem)
  else if check_in_date.isNone then (missing_param_response "check_in_date", store, mem)
  else if check_out_date.isNone then (missing_param_response "check_out_date", store, mem)
  else
    let g := guest_name.getD ""
    let rn := room_number.getD ""
    let check_in := check_in_date.getD 0
    let check_out := check_out_date.getD 0
    if check_in < today then
      ("Check-in date " ++ fmtDate check_in ++ " is in the past. Please provide a future date.",
       store, mem)
    else if check_out ≤ check_in then
      ("Check-out date must be after check-in date.", store, mem)
    else
      let nights := check_out - check_in
      match store.rooms.find? (fun r => r.room_number == rn) with
      | none => ("No room found with number " ++ rn ++ ".", store, mem)
      | some room =>
        match store.roomtypes.find? (fun t => t.room_type == room.room_type) with
        | none => ("No rate found for room type " ++ room.room_type ++ ".", store, mem)
        | some rt =>
          let total_amount := rt.rate_per_night * nights
          let booking : Booking :=
            { guest_name := g, room_number := rn, check_in_date := check_in,
              check_out_date := check_out, total_amount := total_amount, booking_date := now }
          let store' : Store := { store with bookings := store.bookings ++ [booking] }
          let mem' : Mem :=
            if truthyStr session_id then
              fun t => if t == session_id.getD "" then some g else mem t
            else mem
          ("Room " ++ rn ++ " booked for " ++ g ++ " from " ++ fmtDate check_in
             ++ " to " ++ fmtDate check_out ++ " for $" ++ fmtAmount total_amount ++ ".",
           store', mem')

/-- Model of the SERIAL surrogate key for `dh_tickets`: one more than the
largest id in the table. -/
def nextTicketId (store : Store) : Int :=
  (store.tickets.foldr (fun t m => max t.id m) 0) + 1

/-- `raise_guest_request` (`agent.py` lines 199-230): requires a truthy
`room_number`, then inserts an `open` ticket assigned to `housekeeping`. -/
def raise_guest_request (store : Store) (room_number : Option String)
    (request_description : String) (now : Int) : String × Store :=
  if !truthyStr room_number then (missing_param_response "room_number", store)
  else
    let rn := room_number.getD ""
    let tid := nextTicketId store
    let t : Ticket :=
      { id := tid, room_number := rn, request_description := request_description,
        status := "open", assigned_to_department := "housekeeping", created_at := now }
    ("Guest request ticket #" ++ toString tid ++ " raised for room " ++ rn
       ++ " : " ++ request_description ++ ".",
     { store with tickets := store.tickets ++ [t] })

/-- `close_guest_request` (`agent.py` lines 261-292): falsy `ticket_id`
(absent or 0) → missing-parameter reply; unknown id → not-found reply and
no mutation; otherwise sets the ticket's status to `closed`
unconditionally. -/
def close_guest_request (store : Store) (ticket_id : Option Int) : String × Store :=
  if !truthyInt ticket_id then (missing_param_response "ticket_id", store)
  else
    let tid := ticket_id.getD 0
    match store.tickets.find? (fun t => t.id == tid) with
    | none => ("No ticket found with ID " ++ toString tid ++ ".", store)
    | some _ =>
      ("Guest request ticket #" ++ toString tid ++ " has been successfully closed.",
       { store with
           tickets := store.tickets.map (fun t =>
             if t.id == tid then { t with status := "closed" } else t) })

/-- The numeric content of `get_occupancy_rate`'s reply (float percentage
formatting abstracted into the occupied/total pair). -/
inductive OccupancyResult where
  | missingDate
  | noRooms
  | rate (occupied total : Nat)
deriving Repr, DecidableEq

/-- `get_occupancy_rate` (`agent.py` lines 379-413): counts ALL rooms, then
counts bookings with `date BETWEEN check_in_date AND check_out_date`
(both endpoints inclusive); zero rooms is reported before any division. -/
def get_occupancy_rate (store : Store) (date : Option Int) : OccupancyResult :=
  if date.isNone then .missingDate
  else
    let d := date.getD 0
    let total_rooms := store.rooms.length
    let occupied_rooms :=
      (store.bookings.filter (fun b =>
        decide (b.check_in_date ≤ d) && decide (d ≤ b.check_out_date))).length
    if total_rooms = 0 then .noRooms
    else .rate occupied_rooms total_rooms

/-- A calendar date with an explicit year, for the `parse_date` boundary
adapter (which is about year resolution, not day arithmetic). -/
structure CalDate where
  year : Int
  month : Nat
  day : Nat
deriving Repr, DecidableEq

/-- Lexicographic strict order on calendar dates. -/
def CalDate.lt (a b : CalDate) : Bool :=
  decide (a.year < b.year) ||
    (decide (a.year = b.year) &&
      (decide (a.month < b.month) ||
        (decide (a.month = b.month) && decide (a.day < b.day))))

/-- `a ≤ b` on calendar dates, as the negation of `b < a`. -/
def CalDate.le (a b : CalDate) : Bool := !(CalDate.lt b a)

/-- `dateutil.parser.parse` year defaulting: a date string carrying no
explicit year is completed from the default datetime, i.e. it gets the
current year. -/
def dateutil_parse (month day : Nat) (year? : Option Int) (today : CalDate) : CalDate :=
  { year := year?.getD today.year, month := month, day := day }

/-- `parse_date` (`agent.py` lines 56-65): parse, then only when the parsed
year is strictly below the current year, replace it by the current year if
the parsed date (still carrying its original year) is ≥ today, else by the
next year. -/
def parse_date (month day : Nat) (year? : Option Int) (today : CalDate) : CalDate :=
  let parsed := dateutil_parse month day year? today
  let current_year := today.year
  if parsed.year < current_year then
    if CalDate.le today parsed then { parsed with year := current_year }
    else { parsed with year := current_year + 1 }
  else parsed

/-! Spec-side definitions, written from the specification's words, for
comparison against the source-derived functions above. -/

/-- The spec's overlap test, in its words: strict half-open overlap
`existing.check_in < checkOut AND existing.check_out > checkIn`. -/
def specConflictsWith (b : Booking) (check_in check_out : Int) : Bool :=
  decide (b.check_in_date < check_out) && decide (b.check_out_date > check_in)

/-- The spec's `findAvailable`: rooms with no half-open-conflicting booking. -/
def specFindAvailable (store : Store) (check_in check_out : Int) : List Room :=
  store.rooms.filter (fun r =>
    !(store.bookings.any (fun b =>
        b.room_number == r.room_number && specConflictsWith b check_in check_out)))

/-- The spec's occupied-room count: the number of ROOMS having some booking
whose `[check_in_date, check_out_date]` contains the date inclusively. -/
def specOccupiedRoomCount (store : Store) (d : Int) : Nat :=
  (store.rooms.filter (fun r =>
    store.bookings.any (fun b =>
      b.room_number == r.room_number &&
        decide (b.check_in_date ≤ d) && decide (d ≤ b.check_out_date)))).length

/-- Lexicographic non-strict order on character lists (the order ORDER BY
would use on the text column `room_number`). -/
def charListLe : List Char → List Char → Bool
  | [], _ => true
  | _ :: _, [] => false
  | a :: as, b :: bs => if a < b then true else if b < a then false else charListLe as bs

/-- Non-strict room ordering by `room_number`, for sortedness statements. -/
def roomLe (a b : Room) : Prop :=
  charListLe a.room_number.data b.room_number.data = true

instance (a b : Room) : Decidable (roomLe a b) := by
  unfold roomLe; infer_instance

/-! Concrete fixtures used by counterexamples and witnesses. -/

/-- Room 101, a Standard room. -/
def r101 : Room := { room_number := "101", room_type := "Standard", status := "available" }

/-- Room 102, a Deluxe room. -/
def r102 : Room := { room_number := "102", room_type := "Deluxe", status := "available" }

/-- The Standard rate: $80 per night. -/
def rtStd : RoomType := { room_type := "Standard", rate_per_night := 80 }

/-- Empty session memory. -/
def memEmpty : Mem := fun _ => none

/-- An existing booking: Alice in room 101 on `[18, 20)`. -/
def bAlice : Booking :=
  { guest_name := "Alice", room_number := "101", check_in_date := 18,
    check_out_date := 20, total_amount := 160, booking_date := 0 }

/-- A booking on room 101 covering days 3 to 7. -/
def bA : Booking :=
  { guest_name := "A", room_number := "101", check_in_date := 3,
    check_out_date := 7, total_amount := 0, booking_date := 0 }

/-- A second booking on room 101 covering days 4 to 8. -/
def bB : Booking :=
  { guest_name := "B", room_number := "101", check_in_date := 4,
    check_out_date := 8, total_amount := 0, booking_date := 0 }

/-- A ticket that is already closed. -/
def t1closed : Ticket :=
  { id := 1, room_number := "101", request_description := "towels",
    status := "closed", assigned_to_department := "housekeeping", created_at := 0 }

end Agent

namespace Agent

/-- C1: with a known room, a known rate and an existing booking on room 101
over `[18, 20)`, a second request for `[19, 21)` on the same room is claimed
to fail with a room-unavailable outcome and insert nothing; `book_room`
instead reports success and inserts the overlapping booking — there is no
overlap re-check anywhere between validation and the INSERT. -/
theorem book_room_inserts_overlapping_booking :
    (book_room ⟨[r101], [rtStd], [bAlice], []⟩ memEmpty (some "Bob") (some "101")
        (some 19) (some 21) none 10 1).1
      = "Room 101 booked for Bob from 19 to 21 for $160."
    ∧ (book_room ⟨[r101], [rtStd], [bAlice], []⟩ memEmpty (some "Bob") (some "101")
        (some 19) (some 21) none 10 1).2.1.bookings
      = [bAlice, ⟨"Bob", "101", 19, 21, 160, 1⟩]
    ∧ specConflictsWith bAlice 19 21 = true := by
  decide

/-- C2 counterexample: room 101's only booking checks out on day 12, so under
the claimed half-open rule it is available for a stay checking in on day 12;
the code's inclusive comparison excludes it. -/
theorem availability_half_open_claim_false :
    specFindAvailable ⟨[r101], [], [⟨"Alice", "101", 10, 12, 160, 0⟩], []⟩ 12 14 = [r101]
    ∧ availableRooms ⟨[r101], [], [⟨"Alice", "101", 10, 12, 160, 0⟩], []⟩ 12 14 = [] := by
  decide

/-- C2 (amended): `availableRooms` returns exactly the rooms having no
existing booking on the same room number with
`existing.check_in ≤ checkOut AND existing.check_out ≥ checkIn`
(inclusive comparisons, so back-to-back stays DO conflict); no room with
such a booking is ever included. -/
theorem availableRooms_mem_iff (store : Store) (check_in check_out : Int) (r : Room) :
    r ∈ availableRooms store check_in check_out ↔
      r ∈ store.rooms ∧
        ∀ b ∈ store.bookings,
          ¬(b.room_number = r.room_number ∧ b.check_in_date ≤ check_out
              ∧ check_in ≤ b.check_out_date) := by
  simp [availableRooms, conflictsWith, List.mem_filter, List.any_eq_true, not_and,
    and_imp, ge_iff_le]

/-- C3 counterexample: with the rooms stored as 102 before 101 and no
bookings, the result keeps storage order and is not sorted ascending by
room number. -/
theorem availableRooms_not_sorted :
    availableRooms ⟨[r102, r101], [], [], []⟩ 1 2 = [r102, r101]
    ∧ ¬ List.Pairwise roomLe [r102, r101] := by
  decide

/-- C3 (amended): the availability query has no ORDER BY: the result is an
order-preserving sublist of the stored room list, hence deterministic given
the store and sorted ascending by room number exactly when the stored list
already is. -/
theorem availableRooms_sublist_and_sorted (store : Store) (check_in check_out : Int) :
    (availableRooms store check_in check_out).Sublist store.rooms
    ∧ (List.Pairwise roomLe store.rooms →
        List.Pairwise roomLe (availableRooms store check_in check_out)) := by
  constructor
  · exact List.filter_sublist store.rooms
  · intro h
    exact h.sublist (List.filter_sublist store.rooms)

/-- C4: every successful booking records
`total_amount = rate_per_night(room_type) × nights` with
`nights = check_out − check_in ≥ 1`: the inserted row carries exactly that
amount, and a 0-night stay was rejected by the `check_out ≤ check_in`
validation before pricing. -/
theorem book_room_total_amount
    (store : Store) (mem : Mem) (g rn : String) (check_in check_out : Int)
    (session_id : Option String) (today now : Int) (room : Room) (rt : RoomType)
    (hg : g ≠ "") (hrn : rn ≠ "")
    (hpast : ¬ check_in < today) (hrange : check_in < check_out)
    (hroom : store.rooms.find? (fun r => r.room_number == rn) = some room)
    (hrate : store.roomtypes.find? (fun t => t.room_type == room.room_type) = some rt) :
    (book_room store mem (some g) (some rn) (some check_in) (some check_out)
        session_id today now).2.1.bookings
      = store.bookings ++
          [⟨g, rn, check_in, check_out, rt.rate_per_night * (check_out - check_in), now⟩]
    ∧ 1 ≤ check_out - check_in := by
  refine ⟨?_, by omega⟩
  have hco : ¬ check_out ≤ check_in := not_le.mpr hrange
  simp [book_room, truthyStr, hg, hrn, hpast, hco, hroom, hrate]

/-- C4 witness: a concrete 2-night booking of room 101 at the Standard rate. -/
theorem book_room_total_amount_witness :
    (book_room ⟨[r101], [rtStd], [], []⟩ memEmpty (some "Alice") (some "101")
        (some 18) (some 20) none 10 0).2.1.bookings
      = [] ++
          [⟨"Alice", "101", 18, 20, rtStd.rate_per_night * (20 - 18), 0⟩]
    ∧ 1 ≤ (20 : Int) - 18 :=
  book_room_total_amount ⟨[r101], [rtStd], [], []⟩ memEmpty "Alice" "101" 18 20 none 10 0
    r101 rtStd (by decide) (by decide) (by decide) (by decide) (by decide) (by decide)

/-- C5: `close_guest_request` with a (nonzero) ticket id absent from the
store replies "No ticket found" and returns the store unmutated; with an
existing id it sets that ticket's status to closed unconditionally — the
hypothesis says nothing about the prior status, so an already-closed ticket
is "closed" again with the same success reply. -/
theorem close_guest_request_spec (store : Store) (tid : Int) (htid : tid ≠ 0) :
    ((∀ t ∈ store.tickets, t.id ≠ tid) →
        close_guest_request store (some tid)
          = ("No ticket found with ID " ++ toString tid ++ ".", store))
    ∧ ((∃ t ∈ store.tickets, t.id = tid) →
        close_guest_request store (some tid)
          = ("Guest request ticket #" ++ toString tid ++ " has been successfully closed.",
             { store with
                 tickets := store.tickets.map (fun t =>
                   if t.id == tid then { t with status := "closed" } else t) })) := by
  have ht : truthyInt (some tid) = true := by
    simp [truthyInt, htid]
  constructor
  · intro habs
    have hfind : store.tickets.find? (fun t => t.id == tid) = none := by
      simp [List.find?_eq_none]
      exact habs
    simp [close_guest_request, ht, hfind]
  · rintro ⟨t, htmem, htid'⟩
    have hsome : (store.tickets.find? (fun t => t.id == tid)).isSome := by
      rw [List.find?_isSome]
      exact ⟨t, htmem, by simp [htid']⟩
    obtain ⟨t', hfind⟩ := Option.isSome_iff_exists.mp hsome
    simp [close_guest_request, ht, hfind]

/-- C5 witness: closing the already-closed ticket 1 succeeds silently. -/
theorem close_guest_request_spec_witness :
    close_guest_request ⟨[], [], [], [t1closed]⟩ (some 1)
      = ("Guest request ticket #" ++ toString (1 : Int) ++ " has been successfully closed.",
         { (⟨[], [], [], [t1closed]⟩ : Store) with
             tickets := [t1closed].map (fun t =>
               if t.id == 1 then { t with status := "closed" } else t) }) :=
  (close_guest_request_spec ⟨[], [], [], [t1closed]⟩ 1 (by decide)).2
    ⟨t1closed, by simp, by decide⟩

/-- C6 counterexample: one registered room but two bookings on it that both
contain day 5, so the code reports 2 occupied out of 1 total while the
claim's occupied-ROOM count is 1. -/
theorem occupancy_counts_bookings_not_rooms :
    get_occupancy_rate ⟨[r101], [], [bA, bB], []⟩ (some 5) = .rate 2 1
    ∧ specOccupiedRoomCount ⟨[r101], [], [bA, bB], []⟩ 5 = 1
    ∧ (2 : Nat) ≠ 1 := by
  decide

/-- C6 (amended): with at least one registered room, `get_occupancy_rate`
divides the number of BOOKINGS whose `[check_in_date, check_out_date]`
contains the date (both endpoints inclusive) by the total room count; it
does not deduplicate bookings of the same room nor restrict to registered
rooms. -/
theorem get_occupancy_rate_counts_bookings (store : Store) (d : Int)
    (h : store.rooms.length ≠ 0) :
    get_occupancy_rate store (some d)
      = .rate ((store.bookings.filter (fun b =>
            decide (b.check_in_date ≤ d) && decide (d ≤ b.check_out_date))).length)
          store.rooms.length := by
  simp [get_occupancy_rate, h]

/-- C6 witness: a booking over days 3–7 counts as occupying on day 7, its
inclusive right endpoint. -/
theorem get_occupancy_rate_counts_bookings_witness :
    get_occupancy_rate ⟨[r101], [], [bA], []⟩ (some 7) = .rate 1 1 :=
  get_occupancy_rate_counts_bookings ⟨[r101], [], [bA], []⟩ 7 (by decide)

/-- C7: with zero registered rooms, `get_occupancy_rate` reports the
distinct no-rooms outcome: the `total_rooms == 0` test precedes the
division, so no division by zero is ever formed. -/
theorem get_occupancy_rate_no_rooms (store : Store) (d : Int) (h : store.rooms = []) :
    get_occupancy_rate store (some d) = .noRooms := by
  simp [get_occupancy_rate, h]

/-- C7 witness: zero rooms but a booking on the date still yields the
no-rooms outcome. -/
theorem get_occupancy_rate_no_rooms_witness :
    get_occupancy_rate ⟨[], [], [bA], []⟩ (some 5) = .noRooms :=
  get_occupancy_rate_no_rooms ⟨[], [], [bA], []⟩ 5 rfl

/-- C8: a bare month/day parses (via the dateutil default) to the current
year, and `parse_date`'s adjustment only fires when the parsed year is
strictly BELOW the current year — so the result always keeps the current
year, even when the date already passed: January 5 parsed on
2025-10-12 stays 2025-01-05 instead of resolving to 2026. -/
theorem parse_date_bare_date_keeps_current_year :
    (∀ (month day : Nat) (today : CalDate),
        (parse_date month day none today).year = today.year)
    ∧ parse_date 1 5 none ⟨2025, 10, 12⟩ = ⟨2025, 1, 5⟩
    ∧ CalDate.lt ⟨2025, 1, 5⟩ ⟨2025, 10, 12⟩ = true := by
  refine ⟨?_, by decide, by decide⟩
  intro month day today
  simp [parse_date, dateutil_parse]

/-- C9: `book_room` without a guest name but with a (truthy, i.e.
nonempty) session id behaves exactly as if called with the stored
customer name of that thread, and only replies that the guest name is
missing when the thread stores none. -/
theorem book_room_uses_session_guest_name
    (store : Store) (mem : Mem) (rn : Option String) (ci co : Option Int)
    (sid : String) (today now : Int) (hsid : sid ≠ "") :
    (∀ name, mem sid = some name →
        book_room store mem none rn ci co (some sid) today now
          = book_room store mem (some name) rn ci co (some sid) today now)
    ∧ (mem sid = none →
        book_room store mem none rn ci co (some sid) today now
          = (missing_param_response "guest_name", store, mem)) := by
  constructor
  · intro name h
    by_cases hn : name = "" <;>
      simp [book_room, h, truthyStr, hn, hsid]
  · intro h
    simp [book_room, h, truthyStr, hsid]

/-- C9 witness: thread `t1` stores guest name Alice; booking with no guest
name under that session equals booking as Alice. -/
theorem book_room_uses_session_guest_name_witness :
    book_room ⟨[r101], [rtStd], [], []⟩
        (fun t => if t = "t1" then some "Alice" else none) none (some "101")
        (some 18) (some 20) (some "t1") 10 0
      = book_room ⟨[r101], [rtStd], [], []⟩
          (fun t => if t = "t1" then some "Alice" else none) (some "Alice") (some "101")
          (some 18) (some 20) (some "t1") 10 0 :=
  (book_room_uses_session_guest_name ⟨[r101], [rtStd], [], []⟩
      (fun t => if t = "t1" then some "Alice" else none) (some "101")
      (some 18) (some 20) "t1" 10 0 (by decide)).1 "Alice" (by decide)

/-- C10: the required-parameter guards test Python falsiness, not absence:
ticket id 0 yields the missing-parameter reply (not the not-found reply),
and an empty-string room number or guest name yields the missing-parameter
reply with the store untouched. -/
theorem falsiness_missing_param
    (store : Store) (mem : Mem) (desc : String)
    (rn : Option String) (ci co : Option Int) (sid : Option String) (today now : Int) :
    close_guest_request store (some 0) = (missing_param_response "ticket_id", store)
    ∧ missing_param_response "ticket_id" ≠ "No ticket found with ID " ++ toString (0 : Int) ++ "."
    ∧ raise_guest_request store (some "") desc now = (missing_param_response "room_number", store)
    ∧ book_room store mem (some "Alice") (some "") ci co sid today now
        = (missing_param_response "room_number", store, mem)
    ∧ book_room store mem (some "") rn ci co none today now
        = (missing_param_response "guest_name", store, mem) := by
  refine ⟨?_, by decide, ?_, ?_, ?_⟩ <;>
    simp [close_guest_request, raise_guest_request, book_room, truthyInt, truthyStr]

end Agent
